import Mathlib

/-!
Shallow embedding of the support-ticket system in `at1chatbot.py`
(classes `PrioridadeTicket`, `StatusTicket`, `Mensagem`, `Agente`, `Ticket`,
`AutoRespostaManager`, `AnalisadorMensagens`, `SistemaSuporte`).

Embedding conventions:

* Instants and durations (`datetime` / `timedelta`) are integers, in seconds.
  Every state-changing operation takes an explicit `now : ℤ` argument; all
  `datetime.now()` calls performed inside one Python method call are modelled
  as returning this same `now` (the system is single-threaded and each call is
  effectively instantaneous).
* An agent's running average `tempo_medio_resolucao` and the report averages
  are rationals; Python's `timedelta` division rounds to whole microseconds,
  which the exact rational value idealizes.
* Python `dict`s keyed by id are insertion-ordered lists; `d[k] = v` replaces
  the first (and in reachable states only) entry with that key, else appends
  (`dictInsert`), and `d.get(k)` is the first entry with that key (`findById`).
* Python object references are replaced by ids: `Ticket.agente_designado`
  stores the agent's id and the operations read and write the registry entry
  with that id, which coincides with the source's aliasing on every state the
  API can reach.  `Ticket.cliente` is likewise replaced by the two fields the
  operations read, `cliente_id` and `cliente_nome` (a client's `id`/`nome` are
  never mutated).
* `Mensagem.id` (a random UUID) is omitted: no operation reads it.
* `random.choice` appears only through `get_resposta`; the single call site
  reached from the modelled operations asks for type `"problema"`, which is
  not a key of `respostas_padrao`, so the choice is over the one-element
  fallback list and is deterministic.
* `str.lower` is modelled for ASCII and Latin-1 letters, which covers every
  keyword table entry and every input considered here.
-/

/-- Lowercasing of one character as `str.lower` does it on ASCII and Latin-1
letters (the ranges exercised by the keyword tables). -/
def charLower (c : Char) : Char :=
  if 65 ≤ c.toNat ∧ c.toNat ≤ 90 then Char.ofNat (c.toNat + 32)
  else if 192 ≤ c.toNat ∧ c.toNat ≤ 222 ∧ c.toNat ≠ 215 then Char.ofNat (c.toNat + 32)
  else c

/-- `texto.lower()`. -/
def lowerStr (s : String) : String := String.mk (s.data.map charLower)

/-- The first list is a prefix of the second. -/
def startsWithChars : List Char → List Char → Bool
  | [], _ => true
  | _ :: _, [] => false
  | a :: as, b :: bs => a == b && startsWithChars as bs

/-- The first list occurs contiguously inside the second. -/
def containsChars (needle : List Char) : List Char → Bool
  | [] => startsWithChars needle []
  | b :: bs => startsWithChars needle (b :: bs) || containsChars needle bs

/-- Python's `needle in hay` on strings: substring containment. -/
def containsSub (hay needle : String) : Bool := containsChars needle.data hay.data

/-- `class PrioridadeTicket(Enum)`. -/
inductive PrioridadeTicket
  | BAIXA
  | MEDIA
  | ALTA
  | CRITICA
deriving DecidableEq, Repr

/-- The Python enum member's `.name`. -/
def prioridadeName : PrioridadeTicket → String
  | .BAIXA => "BAIXA"
  | .MEDIA => "MEDIA"
  | .ALTA => "ALTA"
  | .CRITICA => "CRITICA"

/-- `PrioridadeTicket.from_keywords`: the first keyword (in the literal's
insertion order) contained in the lowercased text decides the priority;
default `BAIXA`. -/
def from_keywords (texto : String) : PrioridadeTicket :=
  let l := lowerStr texto
  if containsSub l "crítico" then .CRITICA
  else if containsSub l "urgente" then .CRITICA
  else if containsSub l "emergência" then .CRITICA
  else if containsSub l "alto" then .ALTA
  else if containsSub l "importante" then .ALTA
  else if containsSub l "médio" then .MEDIA
  else if containsSub l "normal" then .MEDIA
  else if containsSub l "baixo" then .BAIXA
  else if containsSub l "rotina" then .BAIXA
  else .BAIXA

/-- `class StatusTicket(Enum)`. -/
inductive StatusTicket
  | ABERTO
  | DESIGNADO
  | EM_ANDAMENTO
  | PAUSADO
  | AGUARDANDO_CLIENTE
  | RESOLVIDO
  | FECHADO
deriving DecidableEq, Repr

/-- The Python enum member's `.value`. -/
def statusValue : StatusTicket → String
  | .ABERTO => "aberto"
  | .DESIGNADO => "designado"
  | .EM_ANDAMENTO => "em_andamento"
  | .PAUSADO => "pausado"
  | .AGUARDANDO_CLIENTE => "aguardando_cliente"
  | .RESOLVIDO => "resolvido"
  | .FECHADO => "fechado"

/-- `@dataclass Mensagem` (the random UUID `id` field is omitted). -/
structure Mensagem where
  remetente_id : String
  remetente_nome : String
  conteudo : String
  timestamp : ℤ
  is_sistema : Bool := false
deriving DecidableEq, Repr

/-- `@dataclass Agente`. -/
structure Agente where
  id : String
  nome : String
  email : String
  carga_trabalho : ℤ := 0
  especializacoes : List String := []
  disponivel : Bool := true
  ultimo_login : ℤ := 0
  tickets_resolvidos : ℕ := 0
  tempo_medio_resolucao : ℚ := 0
deriving DecidableEq, Repr

/-- `@dataclass Ticket`; `cliente_id`/`cliente_nome` stand for the two fields
of the owning `Cliente` reference that the operations read. -/
structure Ticket where
  id : String
  titulo : String
  descricao : String
  prioridade : PrioridadeTicket := .BAIXA
  status : StatusTicket := .ABERTO
  cliente_id : String
  cliente_nome : String
  criado_em : ℤ
  agente_designado : Option String := none
  ultima_atualizacao : ℤ
  mensagens : List Mensagem := []
  tags : List String := []
  tempo_primeira_resposta : Option ℤ := none
  tempo_resolucao : Option ℤ := none
  satisfacao_cliente : Option ℤ := none
deriving DecidableEq, Repr

/-- `Ticket.adicionar_mensagem`: appends the message and stamps
`ultima_atualizacao` with the current time. -/
def Ticket.adicionar_mensagem (t : Ticket) (m : Mensagem) (now : ℤ) : Ticket :=
  { t with mensagens := t.mensagens ++ [m], ultima_atualizacao := now }

/-- `AutoRespostaManager.respostas_padrao`, with the `.get` fallback list for
unknown keys. -/
def respostas_padrao (tipo : String) : List String :=
  if tipo = "saudacao" then
    ["Olá! Como posso ajudar você hoje?",
     "Bem-vindo ao nosso suporte! Em que posso auxiliar?",
     "Oi! Estou aqui para ajudar. Qual é a sua dúvida?"]
  else if tipo = "despedida" then
    ["Obrigado por entrar em contato! Tenha um ótimo dia!",
     "Foi um prazer ajudar! Até mais!",
     "Se precisar de mais alguma coisa, estamos à disposição!"]
  else if tipo = "aguarde" then
    ["Por favor, aguarde um momento enquanto processo sua solicitação.",
     "Estou analisando sua questão, só um instante.",
     "Aguarde um momento, já estou verificando isso para você."]
  else
    ["Desculpe, não entendi."]

/-- `AutoRespostaManager.get_resposta`: `random.choice` over the list.  The
only call reached from the modelled operations uses `tipo = "problema"`,
whose list is the one-element fallback, so taking the head is exact. -/
def get_resposta (tipo : String) : String :=
  (respostas_padrao tipo).headD "Desculpe, não entendi."

/-- `AnalisadorMensagens.palavras_chave['problema']`. -/
def palavras_problema : List String := ["erro", "bug", "falha", "problema", "não funciona"]

/-- `AnalisadorMensagens.palavras_chave['urgencia']`. -/
def palavras_urgencia : List String := ["urgente", "crítico", "emergência", "imediato"]

/-- `AnalisadorMensagens.palavras_chave['ajuda']`. -/
def palavras_ajuda : List String := ["ajuda", "suporte", "auxílio", "como"]

/-- Result of `AnalisadorMensagens.classificar_mensagem`. -/
structure Classificacao where
  problema : Bool
  urgencia : Bool
  ajuda : Bool
deriving DecidableEq, Repr

/-- `AnalisadorMensagens.classificar_mensagem`: independent any-keyword
substring tests on the lowercased text. -/
def classificar_mensagem (texto : String) : Classificacao :=
  let l := lowerStr texto
  { problema := palavras_problema.any (fun p => containsSub l p)
    urgencia := palavras_urgencia.any (fun p => containsSub l p)
    ajuda := palavras_ajuda.any (fun p => containsSub l p) }

/-- `AnalisadorMensagens.extrair_prioridade`. -/
def extrair_prioridade (texto : String) : PrioridadeTicket := from_keywords texto

/-- First entry of the insertion-ordered id-keyed list with the given key:
Python `d.get(k)`. -/
def findById (getId : α → String) : List α → String → Option α
  | [], _ => none
  | x :: xs, k => if getId x = k then some x else findById getId xs k

/-- Python `d[v.id] = v` on an insertion-ordered id-keyed list: replace the
first entry with the same key in place, else append. -/
def dictInsert (getId : α → String) : List α → α → List α
  | [], a => [a]
  | x :: xs, a => if getId x = getId a then a :: xs else x :: dictInsert getId xs a

/-- `SistemaSuporte` registry state.  `clientes` is untouched by the modelled
operations (only `registrar_cliente`/`criar_ticket` use it) and is omitted,
as are the stateless `auto_resposta`/`analisador` collaborators. -/
structure Sistema where
  agentes : List Agente := []
  tickets : List Ticket := []
  historico_global : List Mensagem := []
deriving DecidableEq, Repr

/-- `self.sla_configs` in seconds (`timedelta(hours=h)`). -/
def sla_configs : PrioridadeTicket → ℤ
  | .CRITICA => 3600
  | .ALTA => 4 * 3600
  | .MEDIA => 12 * 3600
  | .BAIXA => 24 * 3600

/-- `deque(maxlen=1000)` append. -/
def histAppend (h : List Mensagem) (m : Mensagem) : List Mensagem :=
  if h.length < 1000 then h ++ [m] else h.drop 1 ++ [m]

/-- `SistemaSuporte.adicionar_agente`: unconditional `self.agentes[agente.id]
= agente`. -/
def adicionar_agente (s : Sistema) (agente : Agente) : Sistema :=
  { s with agentes := dictInsert Agente.id s.agentes agente }

/-- The `agentes_disponiveis` list comprehension in `designar_ticket`:
available agents with workload under the capacity ceiling, in registry
(insertion) order. -/
def agentes_disponiveis (s : Sistema) : List Agente :=
  s.agentes.filter (fun a => a.disponivel && decide (a.carga_trabalho < 5))

/-- Membership of `ticket.prioridade.name.lower()` in
`agente.especializacoes`; because the `agentes_especializados` comprehension
filters by exactly this test and Python list membership compares all dataclass
fields, `agente in agentes_especializados` holds iff this predicate holds of
`agente` itself. -/
def especializado (p : PrioridadeTicket) (a : Agente) : Bool :=
  a.especializacoes.contains (lowerStr (prioridadeName p))

/-- `pontuacao_agente` inside `designar_ticket`. -/
def pontuacao_agente (p : PrioridadeTicket) (a : Agente) : ℤ :=
  let pontos : ℤ := 100 - a.carga_trabalho * 20
  let pontos := if especializado p a then pontos + 50 else pontos
  pontos + (a.tickets_resolvidos / 10 : ℕ)

/-- Python `max(b :: l, key)`: the first element attaining the maximum key
(a later element replaces the current best only when strictly greater). -/
def maxFirst (key : α → ℤ) (b : α) (l : List α) : α :=
  l.foldl (fun best x => if key best < key x then x else best) b

/-- `SistemaSuporte.designar_ticket`, acting on the registered ticket with the
given id; returns the selected agent (after its workload increment) as the
source returns the mutated `agente_selecionado`, or `none` when no agent
qualifies. -/
def designar_ticket (s : Sistema) (ticket_id : String) (now : ℤ) : Sistema × Option Agente :=
  match findById Ticket.id s.tickets ticket_id with
  | none => (s, none)
  | some ticket =>
    match agentes_disponiveis s with
    | [] => (s, none)
    | a :: rest =>
      let sel := maxFirst (pontuacao_agente ticket.prioridade) a rest
      let sel1 := { sel with carga_trabalho := sel.carga_trabalho + 1 }
      let t1 := { ticket with agente_designado := some sel.id, status := StatusTicket.DESIGNADO }
      let t2 :=
        if (match t1.tempo_primeira_resposta with
            | none => true
            | some d => decide (d = 0)) then
          { t1 with tempo_primeira_resposta := some (now - t1.criado_em) }
        else t1
      let t3 := t2.adicionar_mensagem
        { remetente_id := "sistema", remetente_nome := "Sistema",
          conteudo := "Ticket designado para " ++ sel1.nome,
          timestamp := now, is_sistema := true } now
      ({ s with tickets := dictInsert Ticket.id s.tickets t3,
                agentes := dictInsert Agente.id s.agentes sel1 }, some sel1)

/-- `SistemaSuporte.processar_mensagem`.  Note the sequencing taken from the
source: `ticket.adicionar_mensagem` stamps `ultima_atualizacao := now` before
the SLA comparison reads it. -/
def processar_mensagem (s : Sistema) (ticket_id remetente_id conteudo : String) (now : ℤ) :
    Sistema × List String :=
  match findById Ticket.id s.tickets ticket_id with
  | none => (s, ["Ticket não encontrado."])
  | some ticket =>
    let remetente_nome? : Option String :=
      if remetente_id = ticket.cliente_id then some ticket.cliente_nome
      else
        match ticket.agente_designado with
        | some aid =>
          if remetente_id = aid then
            some (((findById Agente.id s.agentes aid).map Agente.nome).getD "")
          else none
        | none => none
    match remetente_nome? with
    | none => (s, ["Remetente não autorizado."])
    | some nome =>
      let mensagem : Mensagem :=
        { remetente_id := remetente_id, remetente_nome := nome,
          conteudo := conteudo, timestamp := now }
      let t1 := ticket.adicionar_mensagem mensagem now
      let cls := classificar_mensagem conteudo
      let respostas1 : List String := if cls.problema then [get_resposta "problema"] else []
      let nova := extrair_prioridade conteudo
      let t2 := if cls.urgencia ∧ nova ≠ t1.prioridade then { t1 with prioridade := nova } else t1
      let respostas2 := respostas1 ++
        (if cls.urgencia ∧ nova ≠ t1.prioridade then
          ["Prioridade do ticket atualizada para " ++ prioridadeName nova]
         else [])
      let tempo_decorrido := now - t2.ultima_atualizacao
      let respostas3 := respostas2 ++
        (if sla_configs t2.prioridade < tempo_decorrido then
          ["⚠️ Atenção: Este ticket está próximo de ultrapassar o SLA!"]
         else [])
      ({ s with tickets := dictInsert Ticket.id s.tickets t2,
                historico_global := histAppend s.historico_global mensagem }, respostas3)

/-- The agent bookkeeping block of `atualizar_status_ticket` on resolution:
workload decrement, `tickets_resolvidos` increment, and the incremental
running-average update (the `else` branch reads the just-incremented count and
the not-yet-updated average, as the source does). -/
def agentResolveUpdate (agente : Agente) (tempo : ℤ) : Agente :=
  let n := agente.tickets_resolvidos + 1
  let a1 := { agente with carga_trabalho := agente.carga_trabalho - 1, tickets_resolvidos := n }
  if n = 1 then { a1 with tempo_medio_resolucao := (tempo : ℚ) }
  else
    { a1 with tempo_medio_resolucao :=
        (a1.tempo_medio_resolucao * ((n : ℚ) - 1) + (tempo : ℚ)) / (n : ℚ) }

/-- `SistemaSuporte.atualizar_status_ticket`. -/
def atualizar_status_ticket (s : Sistema) (ticket_id : String) (novo_status : StatusTicket)
    (comentario : Option String) (now : ℤ) : Sistema × Bool :=
  match findById Ticket.id s.tickets ticket_id with
  | none => (s, false)
  | some ticket =>
    let t1 := { ticket with status := novo_status }
    let t2 :=
      match comentario with
      | some c => t1.adicionar_mensagem
          { remetente_id := "sistema", remetente_nome := "Sistema",
            conteudo := "Status atualizado para " ++ statusValue novo_status ++ ": " ++ c,
            timestamp := now, is_sistema := true } now
      | none => t1
    if novo_status = StatusTicket.RESOLVIDO then
      match t2.agente_designado with
      | some aid =>
        let tempo := now - t2.criado_em
        let t3 := { t2 with tempo_resolucao := some tempo }
        match findById Agente.id s.agentes aid with
        | some agente =>
          ({ s with tickets := dictInsert Ticket.id s.tickets t3,
                    agentes := dictInsert Agente.id s.agentes (agentResolveUpdate agente tempo) },
           true)
        | none => ({ s with tickets := dictInsert Ticket.id s.tickets t3 }, true)
      | none => ({ s with tickets := dictInsert Ticket.id s.tickets t2 }, true)
    else ({ s with tickets := dictInsert Ticket.id s.tickets t2 }, true)

/-- Result record of `gerar_relatorio_desempenho`. -/
structure Relatorio where
  total_tickets : ℕ
  tickets_resolvidos : ℕ
  taxa_resolucao : ℚ
  tempo_medio_resolucao : ℚ
  satisfacao_media : ℚ
  agentes_mais_produtivos : List Agente
deriving DecidableEq, Repr

/-- Stable descending insertion by `tickets_resolvidos` (helper for the
`sorted(..., reverse=True)` call; Python's sort is stable). -/
def insertDesc (a : Agente) : List Agente → List Agente
  | [] => [a]
  | b :: bs => if a.tickets_resolvidos < b.tickets_resolvidos then b :: insertDesc a bs
               else a :: b :: bs

/-- `sorted(self.agentes.values(), key=lambda a: a.tickets_resolvidos,
reverse=True)`. -/
def sortDescByResolvidos : List Agente → List Agente
  | [] => []
  | a :: rest => insertDesc a (sortDescByResolvidos rest)

/-- Python truthiness of an `Optional[timedelta]`: `None` and the zero
duration are falsy. -/
def truthyTempo : Option ℤ → Bool
  | none => false
  | some d => decide (d ≠ 0)

/-- Python truthiness of an `Optional[int]`: `None` and `0` are falsy. -/
def truthySat : Option ℤ → Bool
  | none => false
  | some v => decide (v ≠ 0)

/-- `SistemaSuporte.gerar_relatorio_desempenho`.  The time accumulator adds
`tempo_resolucao` over tickets where that field is truthy (non-`None` and
nonzero) but is divided by the count of tickets whose *status* is
`RESOLVIDO`, and is left undivided when that count is zero, exactly as the
source's `if tickets_resolvidos:` guard does. -/
def gerar_relatorio_desempenho (s : Sistema) : Relatorio :=
  let total_tickets := s.tickets.length
  let tickets_resolvidos :=
    (s.tickets.filter (fun t => decide (t.status = StatusTicket.RESOLVIDO))).length
  let soma_tempo : ℤ :=
    (s.tickets.filter (fun t => truthyTempo t.tempo_resolucao)).foldl
      (fun acc t => acc + t.tempo_resolucao.getD 0) 0
  let soma_sat : ℤ :=
    (s.tickets.filter (fun t => truthySat t.satisfacao_cliente)).foldl
      (fun acc t => acc + t.satisfacao_cliente.getD 0) 0
  let total_avaliacoes :=
    (s.tickets.filter (fun t => truthySat t.satisfacao_cliente)).length
  { total_tickets := total_tickets
    tickets_resolvidos := tickets_resolvidos
    taxa_resolucao :=
      if total_tickets ≠ 0 then (tickets_resolvidos : ℚ) / (total_tickets : ℚ) * 100 else 0
    tempo_medio_resolucao :=
      if tickets_resolvidos ≠ 0 then (soma_tempo : ℚ) / (tickets_resolvidos : ℚ)
      else (soma_tempo : ℚ)
    satisfacao_media :=
      if total_avaliacoes ≠ 0 then (soma_sat : ℚ) / (total_avaliacoes : ℚ)
      else (soma_sat : ℚ)
    agentes_mais_produtivos := (sortDescByResolvidos s.agentes).take 3 }

/-- Spec-side definition, following the claim's words only: the arithmetic
mean of `tempo_resolucao` over the tickets whose status is `RESOLVIDO`, zero
when there are none.  Stated for comparison with
`gerar_relatorio_desempenho`. -/
def tempoMedioResolucaoSpec (s : Sistema) : ℚ :=
  let rs := s.tickets.filter (fun t => decide (t.status = StatusTicket.RESOLVIDO))
  let total : ℤ := (rs.map (fun t => t.tempo_resolucao.getD 0)).sum
  if rs.length ≠ 0 then (total : ℚ) / (rs.length : ℚ) else 0

/-! ### Concrete fixtures for counterexamples and witnesses -/

def sistemaVazio : Sistema := {}

def agenteAna : Agente := { id := "a1", nome := "Ana", email := "ana@ex" }

def ticketBase : Ticket :=
  { id := "t1", titulo := "Falha no acesso", descricao := "detalhe", cliente_id := "c1",
    cliente_nome := "Carla", criado_em := 0, ultima_atualizacao := 0 }

def ticketCritico : Ticket := { ticketBase with prioridade := PrioridadeTicket.CRITICA }

def sistemaSLA : Sistema := { tickets := [ticketCritico] }

def agenteJoao : Agente := { id := "1", nome := "João", email := "joao@ex" }

def agenteMaria : Agente := { id := "1", nome := "Maria", email := "maria@ex" }

/-- C5 witness system: two candidates, the specialized one scores higher. -/
def agenteBia : Agente :=
  { id := "a2", nome := "Bia", email := "bia@ex", especializacoes := ["baixa"] }

def sistemaDupla : Sistema := { agentes := [agenteAna, agenteBia], tickets := [ticketBase] }

/-! ### C7: first-response stamping -/

def sistemaPrimeira : Sistema := { agentes := [agenteAna], tickets := [ticketBase] }

def sistemaPrimeiraA : Sistema := (designar_ticket sistemaPrimeira "t1" 0).1

def sistemaPrimeiraB : Sistema := (designar_ticket sistemaPrimeiraA "t1" 5).1

def ticketComResposta : Ticket := { ticketBase with tempo_primeira_resposta := some 3 }

def sistemaComResposta : Sistema :=
  { agentes := [agenteAna], tickets := [ticketComResposta] }

/-! ### C2/C3: resolution bookkeeping re-fires on every RESOLVIDO call -/

def agenteOcupada : Agente := { agenteAna with carga_trabalho := 1 }

def ticketDesignado : Ticket :=
  { ticketBase with status := StatusTicket.DESIGNADO, agente_designado := some "a1" }

def sistemaResolve : Sistema := { agentes := [agenteOcupada], tickets := [ticketDesignado] }

def sistemaResolve1 : Sistema :=
  (atualizar_status_ticket sistemaResolve "t1" StatusTicket.RESOLVIDO none 10).1

def sistemaResolve2 : Sistema :=
  (atualizar_status_ticket sistemaResolve1 "t1" StatusTicket.RESOLVIDO none 20).1

def ticketFechado : Ticket :=
  { ticketBase with status := StatusTicket.FECHADO, tempo_resolucao := some 10 }

def ticketResolvido : Ticket :=
  { ticketBase with id := "t2", status := StatusTicket.RESOLVIDO, tempo_resolucao := some 20 }

def sistemaRelatorio : Sistema := { tickets := [ticketFechado, ticketResolvido] }

def sistemaRelatorioOk : Sistema := { tickets := [ticketResolvido] }

/-! ### Basic lemmas about the id-keyed registry operations -/

/-- A successful lookup returns an entry carrying the looked-up key. -/
theorem findById_eq_id {α} (getId : α → String) (l : List α) (k : String) (x : α)
    (h : findById getId l k = some x) : getId x = k := by
  induction l with
  | nil => simp [findById] at h
  | cons y ys ih =>
    by_cases hy : getId y = k
    · rw [findById, if_pos hy] at h
      cases h
      exact hy
    · rw [findById, if_neg hy] at h
      exact ih h

/-- Looking up the inserted key after a `dict` assignment yields the inserted
entry. -/
theorem findById_dictInsert_self {α} (getId : α → String) (l : List α) (a : α) :
    findById getId (dictInsert getId l a) (getId a) = some a := by
  induction l with
  | nil => simp [dictInsert, findById]
  | cons y ys ih =>
    by_cases hy : getId y = getId a
    · rw [dictInsert, if_pos hy, findById, if_pos rfl]
    · rw [dictInsert, if_neg hy, findById, if_neg hy]
      exact ih

/-- Every SLA budget is positive. -/
theorem sla_configs_pos (p : PrioridadeTicket) : 0 < sla_configs p := by
  cases p <;> decide

/-! ### Python `max(..., key=...)` keeps the first element attaining the
maximum -/

theorem maxFirst_cons (key : α → ℤ) (b x : α) (l : List α) :
    maxFirst key b (x :: l) = maxFirst key (if key b < key x then x else b) l := rfl

theorem maxFirst_mem (key : α → ℤ) (b : α) (l : List α) : maxFirst key b l ∈ b :: l := by
  induction l generalizing b with
  | nil => simp [maxFirst]
  | cons x xs ih =>
    rw [maxFirst_cons]
    by_cases hc : key b < key x
    · rw [if_pos hc]
      exact List.mem_cons_of_mem _ (ih x)
    · rw [if_neg hc]
      rcases List.mem_cons.mp (ih b) with h | h
      · rw [h]
        exact List.mem_cons_self _ _
      · exact List.mem_cons_of_mem _ (List.mem_cons_of_mem _ h)

theorem maxFirst_le (key : α → ℤ) (b : α) (l : List α) :
    ∀ y ∈ b :: l, key y ≤ key (maxFirst key b l) := by
  induction l generalizing b with
  | nil =>
    intro y hy
    rcases List.mem_cons.mp hy with rfl | h
    · simp [maxFirst]
    · simp at h
  | cons x xs ih =>
    intro y hy
    rw [maxFirst_cons]
    by_cases hc : key b < key x
    · rw [if_pos hc]
      rcases List.mem_cons.mp hy with heq | hy'
      · rw [heq]
        exact le_trans hc.le (ih x x (List.mem_cons_self x xs))
      · exact ih x y hy'
    · rw [if_neg hc]
      rcases List.mem_cons.mp hy with heq | hy'
      · rw [heq]
        exact ih b b (List.mem_cons_self b xs)
      · rcases List.mem_cons.mp hy' with heq | hy''
        · rw [heq]
          exact le_trans (not_lt.mp hc) (ih b b (List.mem_cons_self b xs))
        · exact ih b y (List.mem_cons_of_mem _ hy'')

theorem maxFirst_first (key : α → ℤ) (b : α) (l : List α) :
    ∃ l₁ l₂, b :: l = l₁ ++ maxFirst key b l :: l₂ ∧
      ∀ y ∈ l₁, key y < key (maxFirst key b l) := by
  induction l generalizing b with
  | nil => exact ⟨[], [], rfl, by simp⟩
  | cons x xs ih =>
    rw [maxFirst_cons]
    by_cases hc : key b < key x
    · rw [if_pos hc]
      obtain ⟨l₁, l₂, heq, hlt⟩ := ih x
      refine ⟨b :: l₁, l₂, ?_, ?_⟩
      · rw [List.cons_append, ← heq]
      · intro y hy
        rcases List.mem_cons.mp hy with heq | hy'
        · rw [heq]
          exact lt_of_lt_of_le hc (maxFirst_le key x xs x (List.mem_cons_self x xs))
        · exact hlt y hy'
    · rw [if_neg hc]
      obtain ⟨l₁, l₂, heq, hlt⟩ := ih b
      cases l₁ with
      | nil =>
        have hb : b = maxFirst key b xs := ((List.cons.injEq _ _ _ _).mp heq).1
        refine ⟨[], x :: xs, ?_, by simp⟩
        rw [List.nil_append, ← hb]
      | cons z l₁' =>
        have hz : z = b := (((List.cons.injEq _ _ _ _).mp heq).1).symm
        have hxs : xs = l₁' ++ maxFirst key b xs :: l₂ :=
          ((List.cons.injEq _ _ _ _).mp heq).2
        refine ⟨b :: x :: l₁', l₂, ?_, ?_⟩
        · rw [List.cons_append, List.cons_append, ← hxs]
        · intro y hy
          rcases List.mem_cons.mp hy with heq | hy'
          · rw [heq]
            refine hlt b ?_
            rw [hz]
            exact List.mem_cons_self b l₁'
          · rcases List.mem_cons.mp hy' with heq | hy''
            · rw [heq]
              refine lt_of_le_of_lt (not_lt.mp hc) (hlt b ?_)
              rw [hz]
              exact List.mem_cons_self b l₁'
            · exact hlt y (List.mem_cons_of_mem _ hy'')

/-! ### Characterizations of the state-changing operations -/

/-- `designar_ticket` on a registered ticket with a non-empty candidate list:
one-step unfolding into the selected agent and the updated registry. -/
theorem designar_unfold (s : Sistema) (tid : String) (now : ℤ) (t : Ticket)
    (a : Agente) (rest : List Agente)
    (ht : findById Ticket.id s.tickets tid = some t)
    (hd : agentes_disponiveis s = a :: rest) :
    designar_ticket s tid now =
      (let sel := maxFirst (pontuacao_agente t.prioridade) a rest
       let sel1 := { sel with carga_trabalho := sel.carga_trabalho + 1 }
       let t1 := { t with agente_designado := some sel.id, status := StatusTicket.DESIGNADO }
       let t2 :=
         if (match t1.tempo_primeira_resposta with
             | none => true
             | some d => decide (d = 0)) then
           { t1 with tempo_primeira_resposta := some (now - t1.criado_em) }
         else t1
       let t3 := t2.adicionar_mensagem
         { remetente_id := "sistema", remetente_nome := "Sistema",
           conteudo := "Ticket designado para " ++ sel1.nome,
           timestamp := now, is_sistema := true } now
       ({ s with tickets := dictInsert Ticket.id s.tickets t3,
                 agentes := dictInsert Agente.id s.agentes sel1 }, some sel1)) := by
  unfold designar_ticket
  rw [ht, hd]

/-- `atualizar_status_ticket` towards `RESOLVIDO` on a registered ticket whose
assigned agent id is registered: one-step unfolding.  No hypothesis restricts
the ticket's current status: the same bookkeeping runs even when the ticket
is already `RESOLVIDO`. -/
theorem atualizar_resolvido_unfold (s : Sistema) (tid : String) (com : Option String)
    (now : ℤ) (t : Ticket) (aid : String) (ag : Agente)
    (ht : findById Ticket.id s.tickets tid = some t)
    (hag : t.agente_designado = some aid)
    (ha : findById Agente.id s.agentes aid = some ag) :
    atualizar_status_ticket s tid StatusTicket.RESOLVIDO com now =
      (let t1 := { t with status := StatusTicket.RESOLVIDO }
       let t2 :=
         match com with
         | some c => t1.adicionar_mensagem
             { remetente_id := "sistema", remetente_nome := "Sistema",
               conteudo := "Status atualizado para " ++ statusValue StatusTicket.RESOLVIDO
                 ++ ": " ++ c,
               timestamp := now, is_sistema := true } now
         | none => t1
       let tempo := now - t.criado_em
       let t3 := { t2 with tempo_resolucao := some tempo }
       ({ s with tickets := dictInsert Ticket.id s.tickets t3,
                 agentes := dictInsert Agente.id s.agentes (agentResolveUpdate ag tempo) },
        true)) := by
  cases com with
  | none =>
    unfold atualizar_status_ticket
    rw [ht]
    simp [Ticket.adicionar_mensagem, hag, ha]
  | some c =>
    unfold atualizar_status_ticket
    rw [ht]
    simp [Ticket.adicionar_mensagem, hag, ha]

/-- `atualizar_status_ticket` towards `RESOLVIDO` on a registered ticket with
no assigned agent: only the ticket's status (and optional comment message)
change. -/
theorem atualizar_resolvido_sem_agente_unfold (s : Sistema) (tid : String)
    (com : Option String) (now : ℤ) (t : Ticket)
    (ht : findById Ticket.id s.tickets tid = some t)
    (hnone : t.agente_designado = none) :
    atualizar_status_ticket s tid StatusTicket.RESOLVIDO com now =
      (let t1 := { t with status := StatusTicket.RESOLVIDO }
       let t2 :=
         match com with
         | some c => t1.adicionar_mensagem
             { remetente_id := "sistema", remetente_nome := "Sistema",
               conteudo := "Status atualizado para " ++ statusValue StatusTicket.RESOLVIDO
                 ++ ": " ++ c,
               timestamp := now, is_sistema := true } now
         | none => t1
       ({ s with tickets := dictInsert Ticket.id s.tickets t2 }, true)) := by
  cases com with
  | none =>
    unfold atualizar_status_ticket
    rw [ht]
    simp [Ticket.adicionar_mensagem, hnone]
  | some c =>
    unfold atualizar_status_ticket
    rw [ht]
    simp [Ticket.adicionar_mensagem, hnone]

/-- `processar_mensagem` on an absent ticket id: the distinguishable
not-found reply, and no state change. -/
theorem processar_nao_encontrado (s : Sistema) (tid rid c : String) (now : ℤ)
    (h : findById Ticket.id s.tickets tid = none) :
    processar_mensagem s tid rid c now = (s, ["Ticket não encontrado."]) := by
  unfold processar_mensagem
  rw [h]

/-- No SLA budget is below zero. -/
theorem sla_lt_zero_false (p : PrioridadeTicket) : ¬ sla_configs p < 0 := by
  have := sla_configs_pos p
  omega

/-- The warning branch of the SLA check vanishes once the elapsed time is
zero. -/
theorem sla_ite_zero (p : PrioridadeTicket) (l : List String) :
    (if sla_configs p < 0 then l else []) = [] := by
  rw [if_neg (sla_lt_zero_false p)]

/-- The replies returned by `processar_mensagem` on a registered ticket:
the unauthorized-sender reply, or the auto-replies for the `problema` and
priority-change cases.  The SLA-warning branch contributes nothing because
the comparison reads `ultima_atualizacao` after `adicionar_mensagem` has
already stamped it with `now`. -/
theorem processar_found_snd (s : Sistema) (tid rid c : String) (now : ℤ) (t : Ticket)
    (ht : findById Ticket.id s.tickets tid = some t) :
    (processar_mensagem s tid rid c now).2 =
      match (if rid = t.cliente_id then some t.cliente_nome
             else
               match t.agente_designado with
               | some aid =>
                 if rid = aid then
                   some (((findById Agente.id s.agentes aid).map Agente.nome).getD "")
                 else none
               | none => none) with
      | none => ["Remetente não autorizado."]
      | some _ =>
        (if (classificar_mensagem c).problema then [get_resposta "problema"] else []) ++
          (if (classificar_mensagem c).urgencia ∧ extrair_prioridade c ≠ t.prioridade then
            ["Prioridade do ticket atualizada para " ++ prioridadeName (extrair_prioridade c)]
           else []) := by
  unfold processar_mensagem
  rw [ht]
  cases hopt : (if rid = t.cliente_id then some t.cliente_nome
             else
               match t.agente_designado with
               | some aid =>
                 if rid = aid then
                   some (((findById Agente.id s.agentes aid).map Agente.nome).getD "")
                 else none
               | none => none) with
  | none => simp only [hopt]
  | some nome =>
    simp only [hopt, Ticket.adicionar_mensagem]
    by_cases hP : (classificar_mensagem c).urgencia ∧ extrair_prioridade c ≠ t.prioridade
    · simp only [if_pos hP, sub_self, sla_ite_zero, List.append_nil]
    · simp only [if_neg hP, sub_self, sla_ite_zero, List.append_nil]

/-- The SLA warning differs from every priority-update reply. -/
theorem sla_warning_ne_prioridade (p : PrioridadeTicket) :
    "⚠️ Atenção: Este ticket está próximo de ultrapassar o SLA!" ≠
      "Prioridade do ticket atualizada para " ++ prioridadeName p := by
  cases p <;> decide

/-- The not-found reply differs from every priority-update reply. -/
theorem nao_encontrado_ne_prioridade (p : PrioridadeTicket) :
    "Ticket não encontrado." ≠
      "Prioridade do ticket atualizada para " ++ prioridadeName p := by
  cases p <;> decide

/-! ### Claim theorems -/

/-- C1: the SLA check in `processar_mensagem` compares `now` against the
`ultima_atualizacao` that `adicionar_mensagem` has just stamped with `now`,
so the elapsed time it sees is zero.  Concretely: a Critical ticket last
updated at time 0 receives a message at time 100000 (far past the 3600-second
Critical budget) and the returned reply list is empty — no SLA warning.  In
general the warning string is never an element of the returned list, on any
state and input. -/
theorem c1_sla_check_dead :
    ((processar_mensagem sistemaSLA "t1" "c1" "oi" 100000).2 = [] ∧
      sla_configs ticketCritico.prioridade < 100000 - ticketCritico.ultima_atualizacao) ∧
    ∀ (s : Sistema) (tid rid c : String) (now : ℤ),
      "⚠️ Atenção: Este ticket está próximo de ultrapassar o SLA!" ∉
        (processar_mensagem s tid rid c now).2 := by
  refine ⟨⟨by decide, by decide⟩, ?_⟩
  intro s tid rid c now hmem
  rcases hfind : findById Ticket.id s.tickets tid with _ | t
  · rw [processar_nao_encontrado s tid rid c now hfind] at hmem
    simp at hmem
  · rw [processar_found_snd s tid rid c now t hfind] at hmem
    split at hmem
    · simp at hmem
    · simp only [List.mem_append] at hmem
      rcases hmem with h | h
      · split at h
        · simp at h
          exact absurd h (by decide)
        · simp at h
      · split at h
        · simp at h
          exact sla_warning_ne_prioridade (extrair_prioridade c) h
        · simp at h

/-- C4 counterexample: `adicionar_agente` registers a second agent with an
already-registered id without any failure: the entry is silently replaced
(the lookup now returns the new agent, and only one entry remains). -/
theorem c4_counterexample :
    ((findById Agente.id
        (adicionar_agente (adicionar_agente sistemaVazio agenteJoao) agenteMaria).agentes
        "1").map Agente.nome) = some "Maria" ∧
    (adicionar_agente (adicionar_agente sistemaVazio agenteJoao) agenteMaria).agentes.length
      = 1 ∧
    agenteMaria.nome ≠ agenteJoao.nome := by
  exact ⟨rfl, rfl, by decide⟩

/-- C4 amended: `adicionar_agente` inserts the agent keyed by its id,
silently replacing any agent already registered under that id; there is no
duplicate-id failure (the operation is total and returns no error
outcome). -/
theorem c4_amended (s : Sistema) (a : Agente) :
    findById Agente.id (adicionar_agente s a).agentes a.id = some a :=
  findById_dictInsert_self Agente.id s.agentes a

/-- C6: `processar_mensagem` on an absent ticket id returns the not-found
reply and leaves the whole state unchanged, and that reply is never an
element of the reply list produced for a registered ticket, so the failure is
distinguishable from every normal outcome. -/
theorem c6_nao_encontrado_distinguivel (s : Sistema) (tid rid c : String) (now : ℤ) :
    (findById Ticket.id s.tickets tid = none →
      processar_mensagem s tid rid c now = (s, ["Ticket não encontrado."])) ∧
    ∀ t, findById Ticket.id s.tickets tid = some t →
      "Ticket não encontrado." ∉ (processar_mensagem s tid rid c now).2 := by
  constructor
  · intro h
    exact processar_nao_encontrado s tid rid c now h
  · intro t ht hmem
    rw [processar_found_snd s tid rid c now t ht] at hmem
    split at hmem
    · simp at hmem
    · simp only [List.mem_append] at hmem
      rcases hmem with h | h
      · split at h
        · simp at h
          exact absurd h (by decide)
        · simp at h
      · split at h
        · simp at h
          exact nao_encontrado_ne_prioridade (extrair_prioridade c) h
        · simp at h

/-- C6 witness: the not-found branch on a concrete empty registry. -/
theorem c6_witness :
    processar_mensagem sistemaVazio "t1" "c1" "oi" 0 =
      (sistemaVazio, ["Ticket não encontrado."]) :=
  (c6_nao_encontrado_distinguivel sistemaVazio "t1" "c1" "oi" 0).1 rfl

/-- `findById_dictInsert_self` restated for an arbitrary key equal to the
inserted entry's id. -/
theorem findById_dictInsert_key {α} (getId : α → String) (l : List α) (a : α) (k : String)
    (hk : getId a = k) : findById getId (dictInsert getId l a) k = some a := by
  rw [← hk]
  exact findById_dictInsert_self getId l a

/-- C5: with a registered ticket and a non-empty candidate list,
`designar_ticket` picks the candidate with the maximal score (first-seen
among ties, in registry iteration order), returns it with its workload
already incremented, stores its id on the ticket, sets the status to
`DESIGNADO`, and registers the workload increment. -/
theorem c5_designacao_maximiza (s : Sistema) (tid : String) (now : ℤ) (t : Ticket)
    (a : Agente) (rest : List Agente)
    (ht : findById Ticket.id s.tickets tid = some t)
    (hd : agentes_disponiveis s = a :: rest) :
    ∃ sel : Agente,
      sel ∈ agentes_disponiveis s ∧
      (∀ b ∈ agentes_disponiveis s,
        pontuacao_agente t.prioridade b ≤ pontuacao_agente t.prioridade sel) ∧
      (∃ l₁ l₂, agentes_disponiveis s = l₁ ++ sel :: l₂ ∧
        ∀ b ∈ l₁, pontuacao_agente t.prioridade b < pontuacao_agente t.prioridade sel) ∧
      (designar_ticket s tid now).2 =
        some { sel with carga_trabalho := sel.carga_trabalho + 1 } ∧
      (∃ t', findById Ticket.id (designar_ticket s tid now).1.tickets tid = some t' ∧
        t'.agente_designado = some sel.id ∧ t'.status = StatusTicket.DESIGNADO) ∧
      findById Agente.id (designar_ticket s tid now).1.agentes sel.id =
        some { sel with carga_trabalho := sel.carga_trabalho + 1 } := by
  have hid : Ticket.id t = tid := findById_eq_id _ _ _ _ ht
  have hu := designar_unfold s tid now t a rest ht hd
  refine ⟨maxFirst (pontuacao_agente t.prioridade) a rest, ?_, ?_, ?_, ?_, ?_, ?_⟩
  · rw [hd]
    exact maxFirst_mem _ a rest
  · intro b hb
    rw [hd] at hb
    exact maxFirst_le _ a rest b hb
  · rw [hd]
    exact maxFirst_first _ a rest
  · rw [hu]
  · rw [hu]
    dsimp only
    refine ⟨_, findById_dictInsert_key Ticket.id _ _ _ ?_, ?_, ?_⟩
    · split <;> exact hid
    · split <;> rfl
    · split <;> rfl
  · rw [hu]
    dsimp only
    exact findById_dictInsert_key Agente.id _ _ _ rfl

/-- C5 witness: the characterization instantiated on a concrete two-agent
registry. -/
theorem c5_witness :
    ∃ sel : Agente,
      sel ∈ agentes_disponiveis sistemaDupla ∧
      (∀ b ∈ agentes_disponiveis sistemaDupla,
        pontuacao_agente ticketBase.prioridade b ≤ pontuacao_agente ticketBase.prioridade sel) ∧
      (∃ l₁ l₂, agentes_disponiveis sistemaDupla = l₁ ++ sel :: l₂ ∧
        ∀ b ∈ l₁, pontuacao_agente ticketBase.prioridade b <
          pontuacao_agente ticketBase.prioridade sel) ∧
      (designar_ticket sistemaDupla "t1" 0).2 =
        some { sel with carga_trabalho := sel.carga_trabalho + 1 } ∧
      (∃ t', findById Ticket.id (designar_ticket sistemaDupla "t1" 0).1.tickets "t1" = some t' ∧
        t'.agente_designado = some sel.id ∧ t'.status = StatusTicket.DESIGNADO) ∧
      findById Agente.id (designar_ticket sistemaDupla "t1" 0).1.agentes sel.id =
        some { sel with carga_trabalho := sel.carga_trabalho + 1 } :=
  c5_designacao_maximiza sistemaDupla "t1" 0 ticketBase agenteAna [agenteBia] rfl rfl

/-- C7 counterexample: a ticket created and assigned at the same instant
records `tempo_primeira_resposta = 0`; because the guard is Python
truthiness (`if not ticket.tempo_primeira_resposta`), a second assignment at
time 5 overwrites it with 5 — the field is set twice with different
values. -/
theorem c7_counterexample :
    ((findById Ticket.id sistemaPrimeiraA.tickets "t1").map Ticket.tempo_primeira_resposta)
      = some (some 0) ∧
    ((findById Ticket.id sistemaPrimeiraB.tickets "t1").map Ticket.tempo_primeira_resposta)
      = some (some 5) := ⟨rfl, rfl⟩

/-- C7 amended: a successful `designar_ticket` stamps `tempo_primeira_resposta
:= now − criado_em` exactly when the stored value is `None` or a zero
duration (Python falsiness), and leaves a nonzero stored value unchanged; so
the field is set at most once only on runs whose first recorded value is
nonzero. -/
theorem c7_amended (s : Sistema) (tid : String) (now : ℤ) (t : Ticket)
    (a : Agente) (rest : List Agente)
    (ht : findById Ticket.id s.tickets tid = some t)
    (hd : agentes_disponiveis s = a :: rest) :
    ∃ t', findById Ticket.id (designar_ticket s tid now).1.tickets tid = some t' ∧
      t'.tempo_primeira_resposta =
        (match t.tempo_primeira_resposta with
         | none => some (now - t.criado_em)
         | some d => if d = 0 then some (now - t.criado_em) else some d) := by
  have hid : Ticket.id t = tid := findById_eq_id _ _ _ _ ht
  rw [designar_unfold s tid now t a rest ht hd]
  dsimp only
  refine ⟨_, findById_dictInsert_key Ticket.id _ _ _ ?_, ?_⟩
  · split <;> exact hid
  · rcases htpr : t.tempo_primeira_resposta with _ | d
    · simp [Ticket.adicionar_mensagem]
    · by_cases hd0 : d = 0
      · simp [Ticket.adicionar_mensagem, hd0]
      · simp [Ticket.adicionar_mensagem, hd0]

/-- C7 witness: a nonzero stored first-response time survives a further
assignment. -/
theorem c7_witness :
    ∃ t', findById Ticket.id (designar_ticket sistemaComResposta "t1" 9).1.tickets "t1"
        = some t' ∧
      t'.tempo_primeira_resposta = some 3 := by
  obtain ⟨t', h1, h2⟩ :=
    c7_amended sistemaComResposta "t1" 9 ticketComResposta agenteAna [] rfl rfl
  exact ⟨t', h1, h2.trans (by decide)⟩

/-- C2 counterexample: a second `RESOLVIDO` update on an already-resolved
ticket overwrites `tempo_resolucao` (10 becomes 20), so the field is not set
exactly once and the bookkeeping fires again on an already-Resolved
ticket. -/
theorem c2_counterexample :
    ((findById Ticket.id sistemaResolve1.tickets "t1").map
        fun t => (t.status, t.tempo_resolucao)) =
      some (StatusTicket.RESOLVIDO, some 10) ∧
    ((findById Ticket.id sistemaResolve2.tickets "t1").map
        fun t => (t.status, t.tempo_resolucao)) =
      some (StatusTicket.RESOLVIDO, some 20) := ⟨rfl, rfl⟩

/-- C2 amended: on every `atualizar_status_ticket` call with status
`RESOLVIDO` whose ticket is registered and whose assigned agent id is
registered, the call returns `true`, sets `tempo_resolucao := now −
criado_em` (overwriting any previous value — the current status is not
inspected, so this also fires when the ticket is already Resolved), and
applies the agent bookkeeping update. -/
theorem c2_amended (s : Sistema) (tid : String) (com : Option String) (now : ℤ)
    (t : Ticket) (aid : String) (ag : Agente)
    (ht : findById Ticket.id s.tickets tid = some t)
    (hag : t.agente_designado = some aid)
    (ha : findById Agente.id s.agentes aid = some ag) :
    (atualizar_status_ticket s tid StatusTicket.RESOLVIDO com now).2 = true ∧
    (∃ t', findById Ticket.id
        (atualizar_status_ticket s tid StatusTicket.RESOLVIDO com now).1.tickets tid
        = some t' ∧
      t'.status = StatusTicket.RESOLVIDO ∧ t'.tempo_resolucao = some (now - t.criado_em)) ∧
    findById Agente.id
        (atualizar_status_ticket s tid StatusTicket.RESOLVIDO com now).1.agentes aid =
      some (agentResolveUpdate ag (now - t.criado_em)) := by
  have hid : Ticket.id t = tid := findById_eq_id _ _ _ _ ht
  have haid : Agente.id ag = aid := findById_eq_id _ _ _ _ ha
  rw [atualizar_resolvido_unfold s tid com now t aid ag ht hag ha]
  dsimp only
  refine ⟨rfl, ⟨_, findById_dictInsert_key Ticket.id _ _ _ ?_, ?_, ?_⟩, ?_⟩
  · cases com <;> exact hid
  · cases com <;> rfl
  · cases com <;> rfl
  · refine findById_dictInsert_key Agente.id _ _ _ ?_
    unfold agentResolveUpdate
    dsimp only
    split <;> exact haid

/-- C2 witness: the amended statement on a concrete one-call run. -/
theorem c2_witness :
    (atualizar_status_ticket sistemaResolve "t1" StatusTicket.RESOLVIDO none 10).2 = true ∧
    (∃ t', findById Ticket.id
        (atualizar_status_ticket sistemaResolve "t1" StatusTicket.RESOLVIDO none 10).1.tickets
        "t1" = some t' ∧
      t'.status = StatusTicket.RESOLVIDO ∧
      t'.tempo_resolucao = some (10 - ticketDesignado.criado_em)) ∧
    findById Agente.id
        (atualizar_status_ticket sistemaResolve "t1" StatusTicket.RESOLVIDO none 10).1.agentes
        "a1" =
      some (agentResolveUpdate agenteOcupada (10 - ticketDesignado.criado_em)) :=
  c2_amended sistemaResolve "t1" none 10 ticketDesignado "a1" agenteOcupada rfl rfl rfl

/-- C3 counterexample: the agent held one assignment (workload 1); resolving
the same ticket twice decrements the workload twice, down to −1, so the
workload is not decremented exactly once per resolution of the ticket. -/
theorem c3_counterexample :
    ((findById Agente.id sistemaResolve1.agentes "a1").map Agente.carga_trabalho)
      = some 0 ∧
    ((findById Agente.id sistemaResolve2.agentes "a1").map Agente.carga_trabalho)
      = some (-1) := ⟨rfl, rfl⟩

/-- C3 amended: the workload is incremented by one on each successful
`designar_ticket` call and decremented by one on each
`atualizar_status_ticket(RESOLVIDO)` call whose ticket has a registered
assigned agent — including repeated `RESOLVIDO` calls on the same ticket,
each of which decrements again. -/
theorem c3_amended (s s₂ : Sistema) (tid tid₂ : String) (now now₂ : ℤ)
    (com : Option String) (t t₂ : Ticket) (a : Agente) (rest : List Agente)
    (aid : String) (ag : Agente) :
    (findById Ticket.id s.tickets tid = some t → agentes_disponiveis s = a :: rest →
      ∃ sel, sel ∈ s.agentes ∧
        (designar_ticket s tid now).2 =
          some { sel with carga_trabalho := sel.carga_trabalho + 1 } ∧
        findById Agente.id (designar_ticket s tid now).1.agentes sel.id =
          some { sel with carga_trabalho := sel.carga_trabalho + 1 }) ∧
    (findById Ticket.id s₂.tickets tid₂ = some t₂ → t₂.agente_designado = some aid →
      findById Agente.id s₂.agentes aid = some ag →
      ∃ a', findById Agente.id
          (atualizar_status_ticket s₂ tid₂ StatusTicket.RESOLVIDO com now₂).1.agentes aid
          = some a' ∧
        a'.carga_trabalho = ag.carga_trabalho - 1) := by
  constructor
  · intro ht hd
    refine ⟨maxFirst (pontuacao_agente t.prioridade) a rest, ?_, ?_, ?_⟩
    · have hmem := maxFirst_mem (pontuacao_agente t.prioridade) a rest
      rw [← hd] at hmem
      exact List.mem_of_mem_filter hmem
    · rw [designar_unfold s tid now t a rest ht hd]
    · rw [designar_unfold s tid now t a rest ht hd]
      dsimp only
      exact findById_dictInsert_key Agente.id _ _ _ rfl
  · intro ht2 hag ha
    have haid : Agente.id ag = aid := findById_eq_id _ _ _ _ ha
    rw [atualizar_resolvido_unfold s₂ tid₂ com now₂ t₂ aid ag ht2 hag ha]
    dsimp only
    refine ⟨_, findById_dictInsert_key Agente.id _ _ _ ?_, ?_⟩
    · unfold agentResolveUpdate
      dsimp only
      split <;> exact haid
    · unfold agentResolveUpdate
      dsimp only
      split <;> rfl

/-- C3 witness: one concrete assignment (workload 0 → 1) and one concrete
resolution (workload 1 → 0). -/
theorem c3_witness :
    (∃ sel, sel ∈ sistemaPrimeira.agentes ∧
      (designar_ticket sistemaPrimeira "t1" 0).2 =
        some { sel with carga_trabalho := sel.carga_trabalho + 1 } ∧
      findById Agente.id (designar_ticket sistemaPrimeira "t1" 0).1.agentes sel.id =
        some { sel with carga_trabalho := sel.carga_trabalho + 1 }) ∧
    (∃ a', findById Agente.id
        (atualizar_status_ticket sistemaResolve "t1" StatusTicket.RESOLVIDO none 10).1.agentes
        "a1" = some a' ∧
      a'.carga_trabalho = agenteOcupada.carga_trabalho - 1) := by
  have h := c3_amended sistemaPrimeira sistemaResolve "t1" "t1" 0 10 none ticketBase
    ticketDesignado agenteAna [] "a1" agenteOcupada
  exact ⟨h.1 rfl rfl, h.2 rfl rfl rfl⟩

/-- C10: resolving a registered ticket with no assigned agent returns `true`
and sets the status to `RESOLVIDO`, but leaves `tempo_resolucao` null and the
whole agent registry (workloads, resolved counts, averages) unchanged. -/
theorem c10_resolvido_sem_agente (s : Sistema) (tid : String) (com : Option String)
    (now : ℤ) (t : Ticket)
    (ht : findById Ticket.id s.tickets tid = some t)
    (hnone : t.agente_designado = none)
    (hres : t.tempo_resolucao = none) :
    (atualizar_status_ticket s tid StatusTicket.RESOLVIDO com now).2 = true ∧
    (atualizar_status_ticket s tid StatusTicket.RESOLVIDO com now).1.agentes = s.agentes ∧
    ∃ t', findById Ticket.id
        (atualizar_status_ticket s tid StatusTicket.RESOLVIDO com now).1.tickets tid
        = some t' ∧
      t'.status = StatusTicket.RESOLVIDO ∧ t'.tempo_resolucao = none := by
  have hid : Ticket.id t = tid := findById_eq_id _ _ _ _ ht
  rw [atualizar_resolvido_sem_agente_unfold s tid com now t ht hnone]
  dsimp only
  refine ⟨rfl, rfl, _, findById_dictInsert_key Ticket.id _ _ _ ?_, ?_, ?_⟩
  · cases com <;> exact hid
  · cases com <;> rfl
  · cases com <;> exact hres

/-- C10 witness: a concrete unassigned Critical ticket is resolved; the agent
registry is untouched and `tempo_resolucao` stays `none`. -/
theorem c10_witness :
    (atualizar_status_ticket sistemaSLA "t1" StatusTicket.RESOLVIDO none 7).2 = true ∧
    (atualizar_status_ticket sistemaSLA "t1" StatusTicket.RESOLVIDO none 7).1.agentes =
      sistemaSLA.agentes ∧
    ∃ t', findById Ticket.id
        (atualizar_status_ticket sistemaSLA "t1" StatusTicket.RESOLVIDO none 7).1.tickets "t1"
        = some t' ∧
      t'.status = StatusTicket.RESOLVIDO ∧ t'.tempo_resolucao = none :=
  c10_resolvido_sem_agente sistemaSLA "t1" none 7 ticketCritico rfl rfl rfl

/-! ### C8: the incremental running average equals the arithmetic mean -/

/-- One resolution bumps the resolved count by one. -/
theorem agentResolveUpdate_resolvidos (a : Agente) (d : ℤ) :
    (agentResolveUpdate a d).tickets_resolvidos = a.tickets_resolvidos + 1 := by
  unfold agentResolveUpdate
  dsimp only
  split <;> rfl

/-- One resolution step preserves the running total: the new average times
the new count is the old total plus the new duration. -/
theorem agentResolveUpdate_media (a : Agente) (d : ℤ) :
    (agentResolveUpdate a d).tempo_medio_resolucao * ((a.tickets_resolvidos : ℚ) + 1) =
      a.tempo_medio_resolucao * (a.tickets_resolvidos : ℚ) + (d : ℚ) := by
  unfold agentResolveUpdate
  dsimp only
  by_cases h : a.tickets_resolvidos + 1 = 1
  · have h0 : a.tickets_resolvidos = 0 := by omega
    rw [if_pos h]
    dsimp only
    rw [h0]
    push_cast
    ring
  · rw [if_neg h]
    dsimp only
    have hn : ((a.tickets_resolvidos : ℚ) + 1) ≠ 0 := by positivity
    push_cast
    field_simp

/-- Folding the resolution update over a list of durations adds the list
length to the count and the list sum to the running total. -/
theorem fold_resolve_media (ds : List ℤ) : ∀ a : Agente,
    (ds.foldl agentResolveUpdate a).tickets_resolvidos =
      a.tickets_resolvidos + ds.length ∧
    (ds.foldl agentResolveUpdate a).tempo_medio_resolucao *
        ((a.tickets_resolvidos : ℚ) + (ds.length : ℚ)) =
      a.tempo_medio_resolucao * (a.tickets_resolvidos : ℚ) + (ds.sum : ℚ) := by
  induction ds with
  | nil =>
    intro a
    constructor
    · simp
    · simp
  | cons d ds ih =>
    intro a
    obtain ⟨ih1, ih2⟩ := ih (agentResolveUpdate a d)
    constructor
    · rw [List.foldl_cons, ih1, agentResolveUpdate_resolvidos]
      simp [List.length_cons]
      omega
    · rw [List.foldl_cons]
      have h2 := agentResolveUpdate_media a d
      rw [agentResolveUpdate_resolvidos] at ih2
      have e1 : (a.tickets_resolvidos : ℚ) + ((d :: ds).length : ℚ) =
          ((a.tickets_resolvidos + 1 : ℕ) : ℚ) + (ds.length : ℚ) := by
        rw [List.length_cons]
        push_cast
        ring
      rw [e1, ih2]
      push_cast at h2 ⊢
      rw [h2, List.map_cons, List.sum_cons]
      ring

/-- C8: starting from a fresh agent (`tickets_resolvidos = 0`), a sequence of
resolutions with durations `ds` maintained by `agentResolveUpdate` — the
agent-update block of `atualizar_status_ticket` — leaves `tickets_resolvidos
= ds.length` and `tempo_medio_resolucao` equal to the arithmetic mean of
`ds` (exactly, in rational arithmetic). -/
theorem c8_media_incremental (a : Agente) (ds : List ℤ)
    (h0 : a.tickets_resolvidos = 0) (hne : ds ≠ []) :
    (ds.foldl agentResolveUpdate a).tickets_resolvidos = ds.length ∧
    (ds.foldl agentResolveUpdate a).tempo_medio_resolucao =
      (ds.sum : ℚ) / (ds.length : ℚ) := by
  obtain ⟨h1, h2⟩ := fold_resolve_media ds a
  rw [h0] at h1 h2
  constructor
  · simpa using h1
  · have hlen : ((ds.length : ℚ)) ≠ 0 := by
      have hne' : ds.length ≠ 0 := by
        intro h
        exact hne (List.length_eq_zero.mp h)
      exact_mod_cast hne'
    rw [eq_div_iff hlen]
    simpa using h2

/-- C8 witness: durations 10, 20, 30 give count 3 and average 20. -/
theorem c8_witness :
    ([(10 : ℤ), 20, 30].foldl agentResolveUpdate agenteAna).tickets_resolvidos = 3 ∧
    ([(10 : ℤ), 20, 30].foldl agentResolveUpdate agenteAna).tempo_medio_resolucao = 20 := by
  obtain ⟨h1, h2⟩ := c8_media_incremental agenteAna [10, 20, 30] rfl (by decide)
  refine ⟨h1.trans rfl, h2.trans ?_⟩
  norm_num

/-! ### C9: the report's average resolution time -/

/-- C9 counterexample: with a Closed ticket carrying `tempo_resolucao = 10`
and one Resolved ticket with `tempo_resolucao = 20`, the report returns
(10 + 20) / 1 = 30, while the mean over Resolved tickets is 20: the
accumulator ranges over all tickets with truthy `tempo_resolucao`, the
divisor only over Resolved ones. -/
theorem c9_counterexample :
    (gerar_relatorio_desempenho sistemaRelatorio).tempo_medio_resolucao ≠
      tempoMedioResolucaoSpec sistemaRelatorio ∧
    (gerar_relatorio_desempenho sistemaRelatorio).tempo_medio_resolucao = 30 ∧
    tempoMedioResolucaoSpec sistemaRelatorio = 20 := by
  have h1 : (gerar_relatorio_desempenho sistemaRelatorio).tempo_medio_resolucao =
      ((30 : ℤ) : ℚ) / ((1 : ℕ) : ℚ) := rfl
  have h2 : tempoMedioResolucaoSpec sistemaRelatorio =
      ((20 : ℤ) : ℚ) / ((1 : ℕ) : ℚ) := rfl
  refine ⟨?_, ?_, ?_⟩
  · rw [h1, h2]
    norm_num
  · rw [h1]
    norm_num
  · rw [h2]
    norm_num

/-- Summing with `foldl` over an accumulator equals the sum of the mapped
list. -/
theorem foldl_tempo_sum (l : List Ticket) : ∀ i : ℤ,
    l.foldl (fun acc t => acc + t.tempo_resolucao.getD 0) i =
      i + (l.map (fun t => t.tempo_resolucao.getD 0)).sum := by
  induction l with
  | nil =>
    intro i
    simp
  | cons t ts ih =>
    intro i
    rw [List.foldl_cons, ih (i + t.tempo_resolucao.getD 0)]
    simp [add_assoc]

/-- C9 amended: the report's `tempo_medio_resolucao` equals the claimed mean
over Resolved tickets exactly when status-Resolved coincides, ticket by
ticket, with having a truthy (non-null, nonzero) `tempo_resolucao`; the
counterexample shows the two sides differ without that condition. -/
theorem c9_amended (s : Sistema)
    (h : ∀ t ∈ s.tickets,
      decide (t.status = StatusTicket.RESOLVIDO) = truthyTempo t.tempo_resolucao) :
    (gerar_relatorio_desempenho s).tempo_medio_resolucao = tempoMedioResolucaoSpec s := by
  have hfilter : s.tickets.filter (fun t => truthyTempo t.tempo_resolucao) =
      s.tickets.filter (fun t => decide (t.status = StatusTicket.RESOLVIDO)) :=
    (List.filter_congr h).symm
  unfold gerar_relatorio_desempenho tempoMedioResolucaoSpec
  dsimp only
  rw [hfilter, foldl_tempo_sum, zero_add]
  by_cases hlen :
      (s.tickets.filter (fun t => decide (t.status = StatusTicket.RESOLVIDO))).length ≠ 0
  · rw [if_pos hlen, if_pos hlen]
  · rw [if_neg hlen, if_neg hlen]
    have hnil : s.tickets.filter (fun t => decide (t.status = StatusTicket.RESOLVIDO)) = [] :=
      List.length_eq_zero.mp (not_ne_iff.mp hlen)
    rw [hnil]
    simp

/-- C9 witness: when the only ticket with a truthy resolution time is the
Resolved one, the report average and the claimed mean agree. -/
theorem c9_witness :
    (gerar_relatorio_desempenho sistemaRelatorioOk).tempo_medio_resolucao =
      tempoMedioResolucaoSpec sistemaRelatorioOk :=
  c9_amended sistemaRelatorioOk (by decide)

/-- C1 witness instance: on the concrete stale Critical ticket, the warning
is absent from the replies. -/
theorem c1_witness :
    "⚠️ Atenção: Este ticket está próximo de ultrapassar o SLA!" ∉
      (processar_mensagem sistemaSLA "t1" "c1" "oi" 100000).2 :=
  c1_sla_check_dead.2 sistemaSLA "t1" "c1" "oi" 100000

/-- C4 witness instance: inserting a fresh agent makes it retrievable under
its id. -/
theorem c4_witness :
    findById Agente.id (adicionar_agente sistemaVazio agenteAna).agentes agenteAna.id =
      some agenteAna :=
  c4_amended sistemaVazio agenteAna
